import Mathlib

/-!
Verification development for the remote connection and change-application
subsystem of the o1-xml-parser repository.

The TypeScript source is shallowly embedded:
* pure computations become Lean functions;
* the module-level mutable connection pool (src/actions/ssh-actions.ts)
  becomes explicit state passing over a list of pool entries;
* network I/O outcomes (connect, probe, sftp init, stat, stream read/write)
  are supplied by explicit per-attempt oracle records, so every control-flow
  branch of the source is represented;
* a thrown/rejected JavaScript error is `Except.error`, a resolved value is
  `Except.ok`; the `ActionState` result shape `{isSuccess, message, data?}`
  is embedded as its own inductive.

All definitions are executable and structurally recursive so that concrete
runs evaluate by `decide` / `rfl`.
-/

namespace O1Parser

/-! ### JavaScript string primitives

The source classifies errors by `String.prototype.includes`, uppercases
operation tokens with `toUpperCase`, trims with `trim`, and splits paths on
the slash.  These are embedded as structurally recursive functions over the
character list of a `String`, so the kernel can evaluate them.
-/

/-- `listIsPrefix p l` is true when `p` is a prefix of `l` (character lists). -/
def listIsPrefix : List Char → List Char → Bool
  | [], _ => true
  | _ :: _, [] => false
  | a :: as, b :: bs => a == b && listIsPrefix as bs

/-- Substring occurrence on character lists: does `pat` occur inside `hay`? -/
def listContainsSub (pat : List Char) : List Char → Bool
  | [] => listIsPrefix pat []
  | c :: t => listIsPrefix pat (c :: t) || listContainsSub pat t

/-- Embedding of JavaScript `s.includes(pat)`. -/
def jsIncludes (s pat : String) : Bool :=
  listContainsSub pat.data s.data

/-- Embedding of JavaScript `s.startsWith(pat)`. -/
def jsStartsWith (s pat : String) : Bool :=
  listIsPrefix pat.data s.data

/-- Embedding of JavaScript `s.toUpperCase()` (ASCII letters, which is all the
source compares against). -/
def jsToUpperCase (s : String) : String :=
  String.mk (s.data.map Char.toUpper)

/-- Whitespace characters recognised by the embedded `trim`. -/
def jsIsWhitespace (c : Char) : Bool :=
  c == ' ' || c == '\t' || c == '\n' || c == '\r'

/-- Embedding of JavaScript `s.trim()`. -/
def jsTrim (s : String) : String :=
  String.mk (((s.data.dropWhile jsIsWhitespace).reverse.dropWhile jsIsWhitespace).reverse)

/-- JavaScript truthiness for an optional string: `undefined` and `""` are
falsy, everything else truthy.  Used for `if (config.password)`,
`if (!file_code)` and the project-directory fallback. -/
def jsNonEmpty : Option String → Option String
  | none => none
  | some s => if s == "" then none else some s

/-- `config.port || 22`: port `0` is falsy in JavaScript, so it also falls
back to 22. -/
def jsPortOr22 : Option Nat → Nat
  | none => 22
  | some 0 => 22
  | some n => n

/-- Split a string at every slash (the componentization underlying the posix
path functions used by the change applier). -/
def splitSlashAux : List Char → List Char → List (List Char)
  | [], acc => [acc.reverse]
  | c :: cs, acc =>
    if c == '/' then acc.reverse :: splitSlashAux cs []
    else splitSlashAux cs (c :: acc)

/-- Path componentization: `"a/b/c" ↦ ["a", "b", "c"]`. -/
def splitPath (s : String) : List String :=
  (splitSlashAux s.data []).map String.mk

/-- Inverse of `splitPath` on normalized paths; used only to build error
message strings. -/
def showPath : List String → String
  | [] => ""
  | [x] => x
  | x :: xs => x ++ "/" ++ showPath xs

/-! ### Connection pool — src/actions/ssh-actions.ts

`SSHConfig`, `PooledConnection`, `MAX_CONCURRENT_CONNECTIONS`,
`getConnectionFromPool` and `releaseConnection` are translated directly.
The module-level array `connectionPool` becomes an explicit
`List PooledConnection` argument and result.  `Client` object identity is
embedded as a numeric id; `createSSHClient` outcomes and the 2-second
liveness-probe outcome are oracle parameters (`createErr`, `probeOk`).
-/

structure SSHConfig where
  host : String
  port : Option Nat
  username : String
  password : Option String
  privateKey : Option String
  passphrase : Option String
deriving DecidableEq

structure PooledConnection where
  client : Nat
  lastUsed : Nat
  inUse : Bool
  config : SSHConfig
  isValid : Bool
deriving DecidableEq

def MAX_CONCURRENT_CONNECTIONS : Nat := 5

/-- The pool lookup key: `` `${host}:${port || 22}:${username}` ``. -/
def configKey (c : SSHConfig) : String :=
  c.host ++ ":" ++ toString (jsPortOr22 c.port) ++ ":" ++ c.username

/-- The `Array.prototype.find` / mutate-in-place idiom: update the first list
entry satisfying `p` (JavaScript mutates the found object in the array). -/
def updateFirst (p : PooledConnection → Bool) (f : PooledConnection → PooledConnection) :
    List PooledConnection → List PooledConnection
  | [] => []
  | c :: rest => if p c then f c :: rest else c :: updateFirst p f rest

/-- A freshly created pool entry (`{client, lastUsed: now, inUse: true,
config: {...config}, isValid: true}`). -/
def mkPooledConnection (id now : Nat) (cfg : SSHConfig) : PooledConnection :=
  { client := id, lastUsed := now, inUse := true, config := cfg, isValid := true }

/-- The predicate of the idle-entry search in `getConnectionFromPool`:
`!conn.inUse && conn.isValid && key(conn.config) === configKey`. -/
def poolMatch (key : String) (c : PooledConnection) : Bool :=
  !c.inUse && c.isValid && (configKey c.config == key)

/-- `getConnectionFromPool` (ssh-actions.ts lines 197-306).
Returns the pool after the call together with either the checked-out client
id or the thrown error message.

1. sweep: drop entries idle for more than 5 minutes or already invalid;
2. look for an idle valid entry with the same `host:port:username` key;
3. no match and fewer than 5 tracked entries: create a session, push it
   `inUse` into the pool;
4. a match: probe it (`echo ping`, 2s timeout); on probe success mark it
   `inUse` and refresh `lastUsed`; on probe failure invalidate and drop it,
   then create and push a replacement;
5. still no connection (no match and the pool at capacity): create a session
   and push it into the tracked pool as well — note that this branch, like
   branch 3, appends to `connectionPool`. -/
def getConnectionFromPool (cfg : SSHConfig) (now freshId : Nat) (probeOk : Bool)
    (createErr : Option String) (pool : List PooledConnection) :
    List PooledConnection × Except String Nat :=
  let swept := pool.filter (fun c => !(decide (300000 < now - c.lastUsed)) && c.isValid)
  let key := configKey cfg
  match swept.find? (poolMatch key) with
  | none =>
    if swept.length < MAX_CONCURRENT_CONNECTIONS then
      match createErr with
      | some m => (swept, .error ("SSH connection failed: " ++ m))
      | none => (swept ++ [mkPooledConnection freshId now cfg], .ok freshId)
    else
      -- at capacity and no idle match: the source still creates a session and
      -- pushes it into `connectionPool` (lines 288-303)
      match createErr with
      | some m => (swept, .error ("SSH connection failed: " ++ m))
      | none => (swept ++ [mkPooledConnection freshId now cfg], .ok freshId)
  | some found =>
    if probeOk then
      (updateFirst (poolMatch key) (fun c => { c with lastUsed := now, inUse := true }) swept,
        .ok found.client)
    else
      let cleaned :=
        (updateFirst (poolMatch key) (fun c => { c with isValid := false }) swept).filter
          (fun c => c.isValid)
      match createErr with
      | some m => (cleaned, .error ("SSH connection failed: " ++ m))
      | none => (cleaned ++ [mkPooledConnection freshId now cfg], .ok freshId)

/-- `releaseConnection` (ssh-actions.ts lines 308-314): find the entry owning
this client and clear `inUse`, refreshing `lastUsed`; the transport is not
closed. -/
def releaseConnection (clientId now : Nat) (pool : List PooledConnection) :
    List PooledConnection :=
  updateFirst (fun c => c.client == clientId)
    (fun c => { c with inUse := false, lastUsed := now }) pool

/-- One externally observable pool operation. -/
inductive PoolEvent where
  | checkout (cfg : SSHConfig) (now freshId : Nat) (probeOk : Bool) (createErr : Option String)
  | release (clientId now : Nat)
deriving DecidableEq

/-- Effect of one pool operation on the tracked entry list. -/
def poolStep (pool : List PooledConnection) : PoolEvent → List PooledConnection
  | .checkout cfg now freshId probeOk createErr =>
    (getConnectionFromPool cfg now freshId probeOk createErr pool).1
  | .release clientId now => releaseConnection clientId now pool

/-- Run a sequence of checkout/release calls against an initially empty pool. -/
def poolRun (events : List PoolEvent) : List PooledConnection :=
  events.foldl poolStep []

/-! ### Remote filesystem reader — src/actions/ssh-actions.ts

`readRemoteDirectory` and `getRemoteFileContent` share a retry loop:
`while (retryCount <= MAX_RETRIES)`, attempt 0 taking its client from the
pool, later attempts creating a fresh non-pooled client, a 10-second SFTP
initialization timeout, retry classification by substring search on failure
messages, a `1000ms * retryCount` backoff, and a `finally` block that calls
`releaseConnection(client)` only when `retryCount >= MAX_RETRIES`.

The embedding threads the `client` variable (which JavaScript leaves holding
the previous attempt's client when an assignment throws) and the pool list
through the loop, and records an execution trace: how many attempts ran, the
backoff waits in order, how many fresh non-pooled sessions were created and
which clients had `.end()` called on them.
-/

/-- The `{isSuccess, message, data?}` result shape (`ActionState` in
src/types). -/
inductive ActionState (α : Type) where
  | ok (message : String) (data : α)
  | fail (message : String)
deriving DecidableEq

/-- Is this a failure result? -/
def ActionState.isFailure {α : Type} : ActionState α → Bool
  | .ok _ _ => false
  | .fail _ => true

structure RemoteFileEntry where
  name : String
  path : String
  isDirectory : Bool
  size : Nat
  modifyTime : Nat
  content : Option String
deriving DecidableEq

/-- Outcome of one `client.sftp(...)` initialization. -/
inductive SftpInit where
  | ok
  | err (msg : String)
  | timeout
deriving DecidableEq

/-- The transient-error classifier used on SFTP-init failures:
`errorMsg.includes("Channel open failure") || errorMsg.includes("open failed")
|| errorMsg.includes("connection reset")`. -/
def transientMsg (m : String) : Bool :=
  jsIncludes m "Channel open failure" || jsIncludes m "open failed" ||
    jsIncludes m "connection reset"

/-- The outer retry decision:
`!result.isSuccess && retryCount < MAX_RETRIES &&
(result.message.includes("will retry") || result.message.includes("timed out"))`. -/
def retryWanted {α : Type} (res : ActionState α) (rc : Nat) : Bool :=
  match res with
  | .ok _ _ => false
  | .fail m => decide (rc < 2) && (jsIncludes m "will retry" || jsIncludes m "timed out")

/-- The `finally` block of each loop iteration:
`if (client && retryCount >= MAX_RETRIES) releaseConnection(client)`. -/
def finallyRelease (client : Option Nat) (rc now : Nat) (pool : List PooledConnection) :
    List PooledConnection :=
  match client with
  | some cid => if 2 ≤ rc then releaseConnection cid now pool else pool
  | none => pool

/-- Oracle for one attempt of `readRemoteDirectory`: the connect outcome (pool
creation or fresh `createSSHClient`), the liveness-probe outcome (attempt 0
only), the SFTP-init outcome, and the directory listing outcome. -/
structure DirAttempt where
  connectErr : Option String
  probeOk : Bool
  sftpInit : SftpInit
  listErr : Option String
  entries : List RemoteFileEntry
deriving DecidableEq

/-- Trace of one reader entry-point call. -/
structure ReaderTrace (α : Type) where
  result : ActionState α
  pool : List PooledConnection
  attempts : Nat
  waits : List Nat
  freshCreated : Nat
  ended : List Nat
deriving DecidableEq

/-- The inner promise of `readRemoteDirectory` (lines 362-444): SFTP-init
timeout and failure handling, then the directory listing. -/
def dirInnerResult (rc : Nat) (a : DirAttempt) : ActionState (List RemoteFileEntry) :=
  match a.sftpInit with
  | .timeout => .fail "SFTP initialization timed out after 10 seconds"
  | .err m =>
    if transientMsg m && decide (rc < 2) then
      .fail ("SFTP initialization failed (will retry): " ++ m)
    else
      .fail ("Failed to initialize SFTP: " ++ m)
  | .ok =>
    match a.listErr with
    | some m => .fail ("Failed to read directory: " ++ m)
    | none => .ok "Directory read successfully" a.entries

/-- Outcome of one iteration of a reader retry loop: either the call returns
(`done`, carrying the result, the pool after the `finally` block and how many
fresh non-pooled clients this iteration created), or the loop continues
(`retry`, carrying the backoff wait, the value of the `client` variable for
the next iteration, the pool after the `finally` block, the fresh-client
count and the clients ended by the retry branch). -/
inductive IterStep (α : Type) where
  | done (result : ActionState α) (pool : List PooledConnection) (fresh : Nat)
  | retry (wait : Nat) (nextClient : Option Nat) (pool : List PooledConnection)
      (fresh : Nat) (endedNow : List Nat)
deriving DecidableEq

/-- One iteration of the `readRemoteDirectory` retry loop at `retryCount =
rc`: obtain a client (attempt 0 from the pool, later attempts from a fresh
non-pooled `createSSHClient`; a throw takes the catch path, which leaves the
`client` variable holding its previous value), run the inner promise, then
either return or schedule a retry with backoff `1000 * (rc + 1)`; the
`finally` block releases the current `client` only when `retryCount >= 2`
holds at that point. -/
def dirIter (cfg : SSHConfig) (att : Nat → DirAttempt) (now baseId rc : Nat)
    (client : Option Nat) (pool : List PooledConnection) :
    IterStep (List RemoteFileEntry) :=
  let step : List PooledConnection × Except String Nat × Nat :=
    if rc == 0 then
      let r := getConnectionFromPool cfg now (baseId + rc) (att rc).probeOk
        (att rc).connectErr pool
      (r.1, r.2, 0)
    else
      match (att rc).connectErr with
      | some m => (pool, .error ("SSH connection failed: " ++ m), 0)
      | none => (pool, .ok (baseId + rc), 1)
  let pool2 := step.1
  match step.2.1 with
  | .error m =>
    -- the catch block of the loop body
    if rc < 2 then
      .retry (1000 * (rc + 1)) client (finallyRelease client (rc + 1) now pool2) 0 []
    else
      .done (.fail ("Failed to connect to SSH: " ++ m)) (finallyRelease client rc now pool2) 0
  | .ok cid =>
    let fresh := step.2.2
    let res := dirInnerResult rc (att rc)
    if retryWanted res rc then
      .retry (1000 * (rc + 1)) (some cid) (finallyRelease (some cid) (rc + 1) now pool2)
        fresh [cid]
    else
      .done res (finallyRelease (some cid) rc now pool2) fresh

/-- The retry loop of `readRemoteDirectory`.  `fuel` counts the remaining
iterations permitted by `while (retryCount <= MAX_RETRIES)` (3 from the top);
`rc` is `retryCount`. -/
def readRemoteDirectoryGo (cfg : SSHConfig) (att : Nat → DirAttempt) (now baseId : Nat) :
    Nat → Nat → Option Nat → List PooledConnection → ReaderTrace (List RemoteFileEntry)
  | 0, _, _, pool =>
    { result := .fail "Failed to connect after maximum retries", pool := pool,
      attempts := 0, waits := [], freshCreated := 0, ended := [] }
  | fuel + 1, rc, client, pool =>
    match dirIter cfg att now baseId rc client pool with
    | .done res pool2 fresh =>
      { result := res, pool := pool2, attempts := 1, waits := [],
        freshCreated := fresh, ended := [] }
    | .retry w client2 pool3 fresh endedNow =>
      let t := readRemoteDirectoryGo cfg att now baseId fuel (rc + 1) client2 pool3
      { t with
        attempts := t.attempts + 1
        waits := w :: t.waits
        freshCreated := t.freshCreated + fresh
        ended := endedNow ++ t.ended }

/-- `readRemoteDirectory` (ssh-actions.ts lines 317-491), as a function of the
per-attempt I/O oracle.  `identity` is the outcome of `readPrivateKey` when an
identity file argument is given. -/
def readRemoteDirectory (cfg : SSHConfig) (identity : Option (Except String String))
    (att : Nat → DirAttempt) (now baseId : Nat) (pool : List PooledConnection) :
    ReaderTrace (List RemoteFileEntry) :=
  match identity with
  | some (.error m) =>
    -- identity-file read failure: immediate failure return on the first
    -- iteration, before any connection attempt; the outcome of the read is
    -- the same on every iteration, so the check is hoisted out of the loop
    { result := .fail ("Failed to read identity file: " ++ m),
      pool := finallyRelease none 0 now pool,
      attempts := 0, waits := [], freshCreated := 0, ended := [] }
  | _ => readRemoteDirectoryGo cfg att now baseId 3 0 none pool

/-- Outcome of the `sftp.stat` that `readRemoteFileContent` issues before
reading: SFTP status 2 is mapped to not-found, 3 to permission denied. -/
inductive StatOutcome where
  | ok
  | notFound
  | permDenied
  | otherErr (msg : String)
deriving DecidableEq

/-- Oracle for one attempt of `getRemoteFileContent`. -/
structure FileAttempt where
  connectErr : Option String
  probeOk : Bool
  sftpInit : SftpInit
  statRes : StatOutcome
  streamErr : Option String
  content : String
deriving DecidableEq

/-- `readRemoteFileContent` (ssh-actions.ts lines 71-113): stat first for a
precise not-found / permission error, then stream the content; a rejection is
`Except.error` with the exact message built by the source. -/
def readRemoteFileContent (filePath : String) (a : FileAttempt) : Except String String :=
  match a.statRes with
  | .notFound => .error ("No such file: " ++ filePath)
  | .permDenied => .error ("Permission denied: " ++ filePath)
  | .otherErr m => .error ("Error accessing file " ++ filePath ++ ": " ++ m)
  | .ok =>
    match a.streamErr with
    | some m => .error ("Error reading file " ++ filePath ++ ": " ++ m)
    | none => .ok a.content

/-- `` rootDir && !filePath.startsWith("/") ? `${rootDir}/${filePath}` :
filePath ``. -/
def jsFullPath (rootDir : Option String) (p : String) : String :=
  match jsNonEmpty rootDir with
  | some r => if !jsStartsWith p "/" then r ++ "/" ++ p else p
  | none => p

/-- The inner promise of `getRemoteFileContent` (lines 755-807). -/
def fileInnerResult (rc : Nat) (fullPath : String) (a : FileAttempt) : ActionState String :=
  match a.sftpInit with
  | .timeout => .fail "SFTP initialization timed out after 10 seconds"
  | .err m =>
    if transientMsg m && decide (rc < 2) then
      .fail ("SFTP initialization failed (will retry): " ++ m)
    else
      .fail ("Failed to initialize SFTP: " ++ m)
  | .ok =>
    match readRemoteFileContent fullPath a with
    | .error e => .fail ("Failed to read file content: " ++ e)
    | .ok c => .ok "File content read successfully" c

/-- One iteration of the `getRemoteFileContent` retry loop; same skeleton as
`dirIter` (the source duplicates the loop). -/
def fileIter (cfg : SSHConfig) (att : Nat → FileAttempt) (fullPath : String)
    (now baseId rc : Nat) (client : Option Nat) (pool : List PooledConnection) :
    IterStep String :=
  let step : List PooledConnection × Except String Nat × Nat :=
    if rc == 0 then
      let r := getConnectionFromPool cfg now (baseId + rc) (att rc).probeOk
        (att rc).connectErr pool
      (r.1, r.2, 0)
    else
      match (att rc).connectErr with
      | some m => (pool, .error ("SSH connection failed: " ++ m), 0)
      | none => (pool, .ok (baseId + rc), 1)
  let pool2 := step.1
  match step.2.1 with
  | .error m =>
    if rc < 2 then
      .retry (1000 * (rc + 1)) client (finallyRelease client (rc + 1) now pool2) 0 []
    else
      .done (.fail ("Failed to connect to SSH: " ++ m)) (finallyRelease client rc now pool2) 0
  | .ok cid =>
    let fresh := step.2.2
    let res := fileInnerResult rc fullPath (att rc)
    if retryWanted res rc then
      .retry (1000 * (rc + 1)) (some cid) (finallyRelease (some cid) (rc + 1) now pool2)
        fresh [cid]
    else
      .done res (finallyRelease (some cid) rc now pool2) fresh

/-- The retry loop of `getRemoteFileContent`; identical skeleton to
`readRemoteDirectoryGo` (the source duplicates the loop). -/
def getRemoteFileContentGo (cfg : SSHConfig) (att : Nat → FileAttempt) (fullPath : String)
    (now baseId : Nat) :
    Nat → Nat → Option Nat → List PooledConnection → ReaderTrace String
  | 0, _, _, pool =>
    { result := .fail "Failed to connect after maximum retries", pool := pool,
      attempts := 0, waits := [], freshCreated := 0, ended := [] }
  | fuel + 1, rc, client, pool =>
    match fileIter cfg att fullPath now baseId rc client pool with
    | .done res pool2 fresh =>
      { result := res, pool := pool2, attempts := 1, waits := [],
        freshCreated := fresh, ended := [] }
    | .retry w client2 pool3 fresh endedNow =>
      let t := getRemoteFileContentGo cfg att fullPath now baseId fuel (rc + 1) client2 pool3
      { t with
        attempts := t.attempts + 1
        waits := w :: t.waits
        freshCreated := t.freshCreated + fresh
        ended := endedNow ++ t.ended }

/-- `getRemoteFileContent` (ssh-actions.ts lines 707-854). -/
def getRemoteFileContent (cfg : SSHConfig) (identity : Option (Except String String))
    (att : Nat → FileAttempt) (filePath : String) (rootDir : Option String)
    (now baseId : Nat) (pool : List PooledConnection) : ReaderTrace String :=
  match identity with
  | some (.error m) =>
    { result := .fail ("Failed to read identity file: " ++ m),
      pool := finallyRelease none 0 now pool,
      attempts := 0, waits := [], freshCreated := 0, ended := [] }
  | _ => getRemoteFileContentGo cfg att (jsFullPath rootDir filePath) now baseId 3 0 none pool

/-! ### Change applier — lib/apply-changes (src/unnamed/part_011)

Paths are embedded as component lists: `path.join` / `path.posix.join` of the
project root with a relative change path is root components followed by the
split relative path, and `path.posix.dirname` of a component list of length
at least 2 drops the last component (on a single component it yields `"."`,
on `["", x]`, that is `"/x"`, it yields `[""]`, that is `"/"`), which is the
behavior of the Node functions on normalized slash-separated paths — the only
paths the applier builds.

The target tree (local filesystem or remote SFTP server) is an `FSState`: a
set of existing directories and a path-to-content map for files.  Remote I/O
faults that do not depend on the tree (connect, sftp channel, write-stream
and unlink errors) come from a `RemoteEnv` oracle.
-/

structure FSState where
  dirs : List (List String)
  files : List (List String × String)
deriving DecidableEq

/-- The `FileChange` record produced by the change-set parser. -/
structure FileChange where
  file_summary : String
  file_operation : String
  file_path : String
  file_code : Option String
deriving DecidableEq

/-- `path.join(projectDirectory, file_path)` / `path.posix.join`, on
normalized inputs: root components followed by the components of the relative
path. -/
def joinPath (root : List String) (p : String) : List String :=
  root ++ splitPath p

/-- `path.posix.dirname` on a componentized path. -/
def dirnameC (p : List String) : List String :=
  if p.length ≤ 1 then ["."] else p.dropLast

/-- Content of the file at `p`, if present. -/
def lookupFile (fs : FSState) (p : List String) : Option String :=
  (fs.files.find? (fun e => decide (e.1 = p))).map (fun e => e.2)

/-- `fs.writeFile(fullPath, file_code, "utf-8")`: create or overwrite. -/
def writeFileFS (fs : FSState) (p : List String) (c : String) : FSState :=
  { fs with files := (p, c) :: fs.files.filter (fun e => !decide (e.1 = p)) }

/-- `fs.rm(fullPath, { force: true })`: remove the file, tolerating absence. -/
def rmForce (fs : FSState) (p : List String) : FSState :=
  { fs with files := fs.files.filter (fun e => !decide (e.1 = p)) }

/-- Every ancestor of `dir` built from prefix `acc`, shallowest first. -/
def ancestorsAux (acc : List String) : List String → List (List String)
  | [] => []
  | c :: rest => (acc ++ [c]) :: ancestorsAux (acc ++ [c]) rest

/-- `ensureDirectoryExists` (part_011 lines 197-206): `fs.mkdir(dir,
{ recursive: true })` creates the directory and every missing ancestor;
`EEXIST` is swallowed, so on the ideal local filesystem the call always
succeeds. -/
def ensureDirectoryExists (fs : FSState) (dir : List String) : FSState :=
  { fs with dirs := fs.dirs ++ ancestorsAux [] dir }

/-- `applyFileChanges` (part_011 lines 15-53), the local backend.  A rejected
promise is `Except.error`.  JavaScript `if (!file_code)` also fires on the
empty string, hence `jsNonEmpty`.  An unknown operation only logs a warning
and resolves. -/
def applyFileChanges (change : FileChange) (projectDirectory : List String)
    (fs : FSState) : Except String Unit × FSState :=
  let fullPath := joinPath projectDirectory change.file_path
  let op := jsToUpperCase change.file_operation
  if op == "CREATE" then
    match jsNonEmpty change.file_code with
    | none => (.error ("No file_code provided for CREATE operation on " ++ change.file_path), fs)
    | some code =>
      (.ok (), writeFileFS (ensureDirectoryExists fs (dirnameC fullPath)) fullPath code)
  else if op == "UPDATE" then
    match jsNonEmpty change.file_code with
    | none => (.error ("No file_code provided for UPDATE operation on " ++ change.file_path), fs)
    | some code =>
      (.ok (), writeFileFS (ensureDirectoryExists fs (dirnameC fullPath)) fullPath code)
  else if op == "DELETE" then
    (.ok (), rmForce fs fullPath)
  else
    (.ok (), fs)

/-- `ensureRemoteDirectoryExists` (part_011 lines 208-253): stat the
directory; if absent, recurse on its parent, then `mkdir`; if the parent walk
reaches `"."`, `"/"` or a fixpoint without finding an existing directory,
reject with `Cannot create directory`.  On the ideal server `stat` fails only
with not-found and `mkdir` of a fresh directory under an existing parent
succeeds, so a rejection happens before any `mkdir` ran.  The fuel argument
bounds the parent recursion; `dirPath.length + 1` always suffices because
each recursive call drops one component. -/
def ensureRemoteDirectoryExistsGo (fs : FSState) : Nat → List String → Except String FSState
  | 0, dirPath => .error ("Cannot create directory " ++ showPath dirPath)
  | fuel + 1, dirPath =>
    if dirPath ∈ fs.dirs then .ok fs
    else
      let parentDir := dirnameC dirPath
      if parentDir = dirPath ∨ parentDir = ["."] ∨ parentDir = [""] then
        .error ("Cannot create directory " ++ showPath dirPath)
      else
        match ensureRemoteDirectoryExistsGo fs fuel parentDir with
        | .error e => .error e
        | .ok fs2 => .ok { fs2 with dirs := fs2.dirs ++ [dirPath] }

/-- `ensureRemoteDirectoryExists`, with enough fuel for the whole parent
chain. -/
def ensureRemoteDirectoryExists (fs : FSState) (dirPath : List String) :
    Except String FSState :=
  ensureRemoteDirectoryExistsGo fs (dirPath.length + 1) dirPath

/-- The `SSHConfig` of src/types (part_007), used by the remote applier: it
carries an `identityFile` path and no inline `privateKey` field. -/
structure ApplySSHConfig where
  host : String
  port : Option Nat
  username : String
  password : Option String
  passphrase : Option String
  identityFile : Option String
deriving DecidableEq

instance {ε α : Type} [DecidableEq ε] [DecidableEq α] : DecidableEq (Except ε α) :=
  fun a b =>
    match a, b with
    | .error x, .error y =>
      if h : x = y then .isTrue (by rw [h]) else .isFalse (by simp [h])
    | .ok x, .ok y =>
      if h : x = y then .isTrue (by rw [h]) else .isFalse (by simp [h])
    | .error _, .ok _ => .isFalse (by simp)
    | .ok _, .error _ => .isFalse (by simp)

/-- Oracle for the tree-independent I/O faults of one remote apply call. -/
structure RemoteEnv where
  identityRead : Except String String
  connectErr : Option String
  sftpErr : Option String
  writeErr : Option String
  unlinkErr : Option String
deriving DecidableEq

/-- `applyRemoteFileChanges` (part_011 lines 55-195).  The promise executor
resolves the authentication method first — password, else an identity file
read from disk, else reject with `No authentication method provided` — and
only then connects; each call opens its own dedicated client, never the pool.
Operation dispatch mirrors the source `switch` on
`file_operation.toUpperCase()`: CREATE/UPDATE ensure the remote parent
directory chain then stream the content, DELETE unlinks treating a
`No such file` / `ENOENT` error as success, anything else warns and
resolves. -/
def applyRemoteFileChanges (change : FileChange) (projectDirectory : List String)
    (sshConfig : ApplySSHConfig) (env : RemoteEnv) (fs : FSState) :
    Except String Unit × FSState :=
  let fullPath := joinPath projectDirectory change.file_path
  let afterConnect : Unit → Except String Unit × FSState := fun _ =>
    match env.connectErr with
    | some m => (.error ("SSH connection error: " ++ m), fs)
    | none =>
      match env.sftpErr with
      | some m => (.error ("SFTP error: " ++ m), fs)
      | none =>
        let op := jsToUpperCase change.file_operation
        if op == "CREATE" || op == "UPDATE" then
          match jsNonEmpty change.file_code with
          | none =>
            (.error ("No file_code provided for " ++ change.file_operation ++
              " operation on " ++ change.file_path), fs)
          | some code =>
            match ensureRemoteDirectoryExists fs (dirnameC fullPath) with
            | .error e => (.error e, fs)
            | .ok fs2 =>
              match env.writeErr with
              | some m =>
                (.error ("Error writing to " ++ showPath fullPath ++ ": " ++ m), fs2)
              | none => (.ok (), writeFileFS fs2 fullPath code)
        else if op == "DELETE" then
          let unlinkRes : Except String Unit :=
            match env.unlinkErr with
            | some m => .error m
            | none =>
              if (lookupFile fs fullPath).isSome then .ok ()
              else .error "No such file"
          match unlinkRes with
          | .ok _ => (.ok (), rmForce fs fullPath)
          | .error m =>
            if jsIncludes m "No such file" || jsIncludes m "ENOENT" then (.ok (), fs)
            else (.error ("Error deleting " ++ showPath fullPath ++ ": " ++ m), fs)
        else
          (.ok (), fs)
  match jsNonEmpty sshConfig.password with
  | some _ => afterConnect ()
  | none =>
    match jsNonEmpty sshConfig.identityFile with
    | some _ =>
      match env.identityRead with
      | .error m => (.error ("Error reading identity file: " ++ m), fs)
      | .ok _ => afterConnect ()
    | none => (.error "No authentication method provided", fs)

/-! ### Change-set parsing and the apply action — src/actions/ssh-config-actions.ts

The XML parser `parseXmlString` lives in `lib/xml-parser`, which is not part
of the source tree here; it is modelled from the specification.  The change
set document is abstracted to either a missing top-level `changed_files`
structure or the ordered list of its file records.
-/

/-- A change-set document, abstracted to the shape the parser contract talks
about: the top-level structure is present with an ordered list of file
records, or absent. -/
inductive ChangeSetDoc where
  | malformed
  | files (entries : List FileChange)
deriving DecidableEq

/-- Does this operation kind require literal content (CREATE or UPDATE,
case-insensitive)? -/
def opRequiresContent (op : String) : Bool :=
  jsToUpperCase op == "CREATE" || jsToUpperCase op == "UPDATE"

/-- Modelled from the spec: `parseXmlString` of `lib/xml-parser` is not under
src/.  Spec section 4.4: given change-set document text, produce an ordered
sequence of file operations, or fail (`null`) if the expected top-level
structure is absent; a CREATE or UPDATE record without content fails the
whole parse; content is passed through byte-for-byte; parsing is pure. -/
def parseXmlString : ChangeSetDoc → Option (List FileChange)
  | .malformed => none
  | .files entries =>
    if entries.all (fun e => !(opRequiresContent e.file_operation && e.file_code.isNone)) then
      some entries
    else
      none

/-- The `for (const file of changes)` loop of `applyChangesAction`: apply in
document order, stopping at the first rejected operation (its rejection
propagates out of the awaiting loop). -/
def applyLoop (isRemote : Bool) (root : List String) (sshConfig : Option ApplySSHConfig)
    (env : RemoteEnv) : List FileChange → FSState → Except String Unit × FSState
  | [], fs => (.ok (), fs)
  | change :: rest, fs =>
    let step :=
      match sshConfig with
      | some cfg =>
        if isRemote then applyRemoteFileChanges change root cfg env fs
        else applyFileChanges change root fs
      | none => applyFileChanges change root fs
    match step with
    | (.ok _, fs2) => applyLoop isRemote root sshConfig env rest fs2
    | (.error m, fs2) => (.error m, fs2)

/-- `applyChangesAction` (ssh-config-actions.ts, second document, lines
124-160).  Note that this entry point throws (`Except.error`) rather than
returning an `ActionState` value: parse failure, a missing project directory
and a missing remote SSH config all `throw`, and a rejection from an applied
operation propagates out of the `await`.  `envProjectDirectory` is
`process.env.PROJECT_DIRECTORY`. -/
def applyChangesAction (xml : ChangeSetDoc) (projectDirectory : String) (isRemote : Bool)
    (sshConfig : Option ApplySSHConfig) (envProjectDirectory : Option String)
    (env : RemoteEnv) (fs : FSState) : Except String Unit × FSState :=
  match parseXmlString xml with
  | none => (.error "Invalid XML format. Could not find changed_files.", fs)
  | some changes =>
    let finalDirectory :=
      if jsTrim projectDirectory == "" then envProjectDirectory
      else some (jsTrim projectDirectory)
    match jsNonEmpty finalDirectory with
    | none => (.error "No project directory provided and no fallback found in environment.", fs)
    | some dir =>
      if isRemote && sshConfig.isNone then
        (.error "SSH configuration is required for remote file operations.", fs)
      else
        applyLoop isRemote (splitPath dir) sshConfig env changes fs

/-! ### Shared lemmas -/

theorem length_updateFirst (p : PooledConnection → Bool) (f : PooledConnection → PooledConnection)
    (l : List PooledConnection) : (updateFirst p f l).length = l.length := by
  induction l with
  | nil => rfl
  | cons c rest ih => simp only [updateFirst]; split <;> simp [ih]

/-- A checkout adds at most one tracked entry; a release adds none. -/
theorem poolStep_length_le (pool : List PooledConnection) (e : PoolEvent) :
    (poolStep pool e).length ≤ pool.length + 1 := by
  cases e with
  | release cid now =>
    simp [poolStep, releaseConnection, length_updateFirst]
  | checkout cfg now freshId probeOk createErr =>
    have hs : (pool.filter
        (fun c => !(decide (300000 < now - c.lastUsed)) && c.isValid)).length ≤ pool.length :=
      List.length_filter_le _ _
    simp only [poolStep, getConnectionFromPool]
    split
    · split
      · cases createErr <;> simp <;> omega
      · cases createErr <;> simp <;> omega
    · split
      · simp [length_updateFirst]; omega
      · cases createErr <;> simp [length_updateFirst] <;>
          calc _ ≤ _ := List.length_filter_le _ _
            _ = _ := length_updateFirst _ _ _
            _ ≤ _ := by omega

theorem listIsPrefix_append (p x y : List Char) (h : listIsPrefix p x = true) :
    listIsPrefix p (x ++ y) = true := by
  induction p generalizing x with
  | nil => rfl
  | cons a as ih =>
    cases x with
    | nil => simp [listIsPrefix] at h
    | cons b bs =>
      simp only [listIsPrefix, Bool.and_eq_true] at h ⊢
      exact ⟨h.1, ih bs h.2⟩

theorem listContainsSub_append_left (pat x y : List Char)
    (h : listContainsSub pat x = true) : listContainsSub pat (x ++ y) = true := by
  induction x with
  | nil =>
    simp only [listContainsSub] at h
    cases pat with
    | nil => cases y <;> simp [listContainsSub, listIsPrefix]
    | cons a as => simp [listIsPrefix] at h
  | cons c t ih =>
    simp only [listContainsSub, Bool.or_eq_true] at h ⊢
    rcases h with h | h
    · exact Or.inl (listIsPrefix_append _ _ _ h)
    · exact Or.inr (ih h)

/-- If the pattern occurs in `s` it occurs in `s ++ t`; used to track the
`"will retry"` marker through message concatenation. -/
theorem jsIncludes_append_left (s t pat : String) (h : jsIncludes s pat = true) :
    jsIncludes (s ++ t) pat = true := by
  simp only [jsIncludes, String.data_append]
  exact listContainsSub_append_left _ _ _ h

/-- When `createSSHClient` would succeed, every branch of
`getConnectionFromPool` checks a client out. -/
theorem getConnectionFromPool_ok (cfg : SSHConfig) (now freshId : Nat) (probeOk : Bool)
    (pool : List PooledConnection) :
    ∃ pool2 cid, getConnectionFromPool cfg now freshId probeOk none pool = (pool2, .ok cid) := by
  simp only [getConnectionFromPool]
  split
  · split <;> exact ⟨_, _, rfl⟩
  · split
    · exact ⟨_, _, rfl⟩
    · exact ⟨_, _, rfl⟩

/-- A transient SFTP-init failure (timeout included) triggers the outer retry
below the retry budget. -/
theorem transient_dirInner_fail_retry (rc : Nat) (a : DirAttempt) (hrc : rc < 2)
    (h : a.sftpInit = .timeout ∨ ∃ m, a.sftpInit = .err m ∧ transientMsg m = true) :
    retryWanted (dirInnerResult rc a) rc = true := by
  rcases h with h | ⟨m, hm, htm⟩
  · simp [dirInnerResult, h, retryWanted, hrc]
    decide
  · simp [dirInnerResult, hm, htm, hrc, retryWanted]
    exact Or.inl (jsIncludes_append_left _ _ _ (by decide))

theorem dirInner_fail_of_transient (rc : Nat) (a : DirAttempt)
    (h : a.sftpInit = .timeout ∨ ∃ m, a.sftpInit = .err m ∧ transientMsg m = true) :
    (dirInnerResult rc a).isFailure = true := by
  rcases h with h | ⟨m, hm, htm⟩
  · simp [dirInnerResult, h, ActionState.isFailure]
  · simp only [dirInnerResult, hm]
    split <;> simp [ActionState.isFailure]

/-- Once `retryCount` reaches 2 the loop never retries again. -/
theorem retryWanted_two {α : Type} (res : ActionState α) : retryWanted res 2 = false := by
  cases res <;> simp [retryWanted]

/-! ### C1 — pool size bound -/

/-- A password config for host `h`. -/
def claim1Cfg (h : String) : SSHConfig :=
  { host := h, port := none, username := "u", password := some "p",
    privateKey := none, passphrase := none }

/-- Six checkout calls with six distinct host configs at time 0, ids 1-6,
probe irrelevant, creation succeeding. -/
def claim1Events : List PoolEvent :=
  [.checkout (claim1Cfg "h1") 0 1 true none,
   .checkout (claim1Cfg "h2") 0 2 true none,
   .checkout (claim1Cfg "h3") 0 3 true none,
   .checkout (claim1Cfg "h4") 0 4 true none,
   .checkout (claim1Cfg "h5") 0 5 true none,
   .checkout (claim1Cfg "h6") 0 6 true none]

/-- C1 (counterexample): six checkouts with distinct configs leave six
entries in the tracked pool — the entry list exceeds the fixed maximum of 5,
because the at-capacity checkout path pushes its new session into
`connectionPool` instead of keeping it outside the tracked pool. -/
theorem claim1_counterexample :
    MAX_CONCURRENT_CONNECTIONS < (poolRun claim1Events).length := by decide

/-- C1 (amended): the tracked pool is not bounded by 5; what the checkout and
release code does guarantee is that each checkout adds at most one tracked
entry and a release adds none, so after any sequence of checkout/release
calls starting from the empty pool the tracked entry list is bounded by the
number of calls. -/
theorem claim1_pool_growth_bound (events : List PoolEvent) :
    (poolRun events).length ≤ events.length := by
  suffices h : ∀ pool, (events.foldl poolStep pool).length ≤ pool.length + events.length by
    simpa using h []
  induction events with
  | nil => simp
  | cons e rest ih =>
    intro pool
    calc (List.foldl poolStep (poolStep pool e) rest).length
        ≤ (poolStep pool e).length + rest.length := ih _
      _ ≤ pool.length + 1 + rest.length := by have := poolStep_length_le pool e; omega
      _ = pool.length + (e :: rest).length := by simp; omega

/-! ### C2 — release of the pooled session -/

/-- A sample password config. -/
def sampleCfg : SSHConfig :=
  { host := "h", port := none, username := "u", password := some "p",
    privateKey := none, passphrase := none }

/-- An attempt oracle where everything succeeds: pool creation works, SFTP
initializes, the listing returns no entries. -/
def claim2Att : Nat → DirAttempt := fun _ =>
  { connectErr := none, probeOk := true, sftpInit := .ok, listErr := none, entries := [] }

/-- C2: a `readRemoteDirectory` call that succeeds on its first attempt
returns its success result while the pooled session it checked out is still
marked `inUse` (and `lastUsed` not refreshed) — the `finally` block releases
only when `retryCount >= MAX_RETRIES`, which is false on a first-attempt
return, so the pooled entry is never handed back. -/
theorem claim2_success_leaves_in_use :
    (readRemoteDirectory sampleCfg none claim2Att 0 10 []).result =
      .ok "Directory read successfully" [] ∧
    (readRemoteDirectory sampleCfg none claim2Att 0 10 []).pool =
      [{ client := 10, lastUsed := 0, inUse := true, config := sampleCfg, isValid := true }] := by
  decide

/-! ### C3 — transient retry budget -/

/-- A transient SFTP-init failure below the retry budget makes `dirIter`
schedule a retry with backoff `1000 * (rc + 1)`. -/
theorem dirIter_retry_shape (cfg : SSHConfig) (att : Nat → DirAttempt)
    (now baseId rc : Nat) (client : Option Nat) (pool : List PooledConnection)
    (hrc : rc < 2) (hc : (att rc).connectErr = none)
    (ht : (att rc).sftpInit = .timeout ∨
      ∃ m, (att rc).sftpInit = .err m ∧ transientMsg m = true) :
    ∃ c2 p3 f e, dirIter cfg att now baseId rc client pool =
      .retry (1000 * (rc + 1)) c2 p3 f e := by
  have hretry := transient_dirInner_fail_retry rc (att rc) hrc ht
  simp only [dirIter, hc]
  by_cases h0 : rc = 0
  · subst h0
    obtain ⟨p2, cid, hgc⟩ := getConnectionFromPool_ok cfg now baseId (att 0).probeOk pool
    simp [hgc, hretry, hrc]
  · simp [h0, hretry, hrc]

/-- At `retryCount = 2` the iteration always returns. -/
theorem dirIter_done_shape_two (cfg : SSHConfig) (att : Nat → DirAttempt)
    (now baseId : Nat) (client : Option Nat) (pool : List PooledConnection)
    (hc : (att 2).connectErr = none) :
    ∃ p2 f, dirIter cfg att now baseId 2 client pool =
      .done (dirInnerResult 2 (att 2)) p2 f := by
  simp [dirIter, hc, retryWanted_two]

/-- C3: when every attempt fails with a transient-classified error (an SFTP
init failure whose message matches the channel-open / open-failed /
connection-reset classifier, or the 10-second init timeout), the reader makes
exactly 3 attempts with backoff waits of 1000ms then 2000ms between them, and
returns a failure result. -/
theorem claim3_retry_budget (cfg : SSHConfig) (att : Nat → DirAttempt)
    (now baseId : Nat) (pool : List PooledConnection)
    (h : ∀ i, i < 3 → (att i).connectErr = none ∧
      ((att i).sftpInit = .timeout ∨
        ∃ m, (att i).sftpInit = .err m ∧ transientMsg m = true)) :
    (readRemoteDirectory cfg none att now baseId pool).attempts = 3 ∧
    (readRemoteDirectory cfg none att now baseId pool).waits = [1000, 2000] ∧
    (readRemoteDirectory cfg none att now baseId pool).result.isFailure = true := by
  obtain ⟨c2a, p3a, fa, ea, h0⟩ :=
    dirIter_retry_shape cfg att now baseId 0 none pool (by omega) (h 0 (by omega)).1
      (h 0 (by omega)).2
  obtain ⟨c2b, p3b, fb, eb, h1⟩ :=
    dirIter_retry_shape cfg att now baseId 1 c2a p3a (by omega) (h 1 (by omega)).1
      (h 1 (by omega)).2
  obtain ⟨p2c, fc, h2⟩ :=
    dirIter_done_shape_two cfg att now baseId c2b p3b (h 2 (by omega)).1
  have hf2 := dirInner_fail_of_transient 2 (att 2) (h 2 (by omega)).2
  have hun : readRemoteDirectory cfg none att now baseId pool
      = readRemoteDirectoryGo cfg att now baseId 3 0 none pool := rfl
  rw [hun]
  simp only [readRemoteDirectoryGo, h0, h1, h2]
  simp [hf2]

/-- An attempt oracle failing every time with a channel-open failure. -/
def claim3Att : Nat → DirAttempt := fun _ =>
  { connectErr := none, probeOk := true, sftpInit := .err "Channel open failure (x)",
    listErr := none, entries := [] }

/-- C3 witness: the theorem applied to a concrete all-transient run. -/
theorem claim3_retry_budget_witness :
    (readRemoteDirectory sampleCfg none claim3Att 0 10 []).attempts = 3 ∧
    (readRemoteDirectory sampleCfg none claim3Att 0 10 []).waits = [1000, 2000] ∧
    (readRemoteDirectory sampleCfg none claim3Att 0 10 []).result.isFailure = true :=
  claim3_retry_budget sampleCfg claim3Att 0 10 []
    (fun i _ => ⟨rfl, Or.inr ⟨"Channel open failure (x)", rfl, by decide⟩⟩)

/-! ### C8 — permanent protocol errors -/

/-- Message produced by the stat pre-check for a permanent protocol error. -/
def permanentStatMsg : StatOutcome → String → Option String
  | .notFound, p => some ("No such file: " ++ p)
  | .permDenied, p => some ("Permission denied: " ++ p)
  | _, _ => none

/-- An attempt oracle whose stat pre-check always reports permission denied. -/
def claim8Att : Nat → FileAttempt := fun _ =>
  { connectErr := none, probeOk := true, sftpInit := .ok, statRes := .permDenied,
    streamErr := none, content := "" }

/-- C8 (counterexample): a permission-denied failure is NOT always returned
after exactly 1 attempt.  The retry decision is a substring search on the
failure message, and the message embeds the requested path; for the path
`/data/timed out` the permanent permission error message matches the
`"timed out"` retry marker and the reader retries the full budget: 3 attempts
with backoff waits, creating fresh non-pooled sessions. -/
theorem claim8_counterexample :
    (getRemoteFileContent sampleCfg none claim8Att "/data/timed out" none 0 10 []).attempts = 3 ∧
    (getRemoteFileContent sampleCfg none claim8Att "/data/timed out" none 0 10 []).waits =
      [1000, 2000] ∧
    (getRemoteFileContent sampleCfg none claim8Att "/data/timed out" none 0 10 []).freshCreated
      = 2 := by
  decide

/-- C8 (amended): a first-attempt permanent protocol error (stat reporting
not-found or permission denied) yields an immediate failure result with
exactly 1 attempt, no backoff wait and no fresh non-pooled session — provided
the failure message (which embeds the path) does not contain the retry
markers `"will retry"` or `"timed out"`. -/
theorem claim8_permanent_no_retry (cfg : SSHConfig) (att : Nat → FileAttempt)
    (filePath : String) (rootDir : Option String) (now baseId : Nat)
    (pool : List PooledConnection) (em : String)
    (hc : (att 0).connectErr = none) (hs : (att 0).sftpInit = .ok)
    (hst : permanentStatMsg (att 0).statRes (jsFullPath rootDir filePath) = some em)
    (hm1 : jsIncludes ("Failed to read file content: " ++ em) "will retry" = false)
    (hm2 : jsIncludes ("Failed to read file content: " ++ em) "timed out" = false) :
    (getRemoteFileContent cfg none att filePath rootDir now baseId pool).result =
      .fail ("Failed to read file content: " ++ em) ∧
    (getRemoteFileContent cfg none att filePath rootDir now baseId pool).attempts = 1 ∧
    (getRemoteFileContent cfg none att filePath rootDir now baseId pool).waits = [] ∧
    (getRemoteFileContent cfg none att filePath rootDir now baseId pool).freshCreated = 0 := by
  obtain ⟨p2, cid, hgc⟩ :=
    getConnectionFromPool_ok cfg now baseId (att 0).probeOk pool
  have hres : fileInnerResult 0 (jsFullPath rootDir filePath) (att 0) =
      .fail ("Failed to read file content: " ++ em) := by
    cases hcase : (att 0).statRes <;>
      simp [hcase, permanentStatMsg] at hst <;>
      simp [fileInnerResult, hs, readRemoteFileContent, hcase, ← hst]
  have hrw : retryWanted (ActionState.fail ("Failed to read file content: " ++ em) :
      ActionState String) 0 = false := by
    simp [retryWanted, hm1, hm2]
  have hun : getRemoteFileContent cfg none att filePath rootDir now baseId pool
      = getRemoteFileContentGo cfg att (jsFullPath rootDir filePath) now baseId 3 0 none pool :=
    rfl
  rw [hun]
  simp only [getRemoteFileContentGo, fileIter, hc]
  simp [hgc, hrw, hres]

/-- C8 witness: the amended theorem applied to a concrete permission-denied
read of `/etc/app.conf`. -/
theorem claim8_permanent_no_retry_witness :
    (getRemoteFileContent sampleCfg none claim8Att "/etc/app.conf" none 0 10 []).result =
      .fail "Failed to read file content: Permission denied: /etc/app.conf" ∧
    (getRemoteFileContent sampleCfg none claim8Att "/etc/app.conf" none 0 10 []).attempts = 1 ∧
    (getRemoteFileContent sampleCfg none claim8Att "/etc/app.conf" none 0 10 []).waits = [] ∧
    (getRemoteFileContent sampleCfg none claim8Att "/etc/app.conf" none 0 10 []).freshCreated
      = 0 :=
  claim8_permanent_no_retry sampleCfg claim8Att "/etc/app.conf" none 0 10 []
    "Permission denied: /etc/app.conf" rfl rfl (by decide) (by decide) (by decide)


/-! ### C4 — uniform result shape of entry points -/

/-- A fault-free remote environment. -/
def idleEnv : RemoteEnv :=
  { identityRead := .ok "key", connectErr := none, sftpErr := none,
    writeErr := none, unlinkErr := none }

/-- An empty target tree. -/
def emptyFS : FSState := { dirs := [], files := [] }

/-- C4 (counterexample): the change-application entry point does not return a
`{success: false, message}` value on a malformed change-set document — it
throws.  In the embedding a thrown/rejected error is `Except.error`, as
opposed to the reader entry points whose results are `ActionState` values. -/
theorem claim4_counterexample :
    applyChangesAction .malformed "/proj" false none none idleEnv emptyFS =
      (.error "Invalid XML format. Could not find changed_files.", emptyFS) := by
  decide

/-- C4 (amended): whenever the change-set parse fails, `applyChangesAction`
throws the `Invalid XML format` error (rather than resolving to a result
value), leaving the target tree untouched. -/
theorem claim4_apply_throws (xml : ChangeSetDoc) (pd : String) (ir : Bool)
    (sc : Option ApplySSHConfig) (epd : Option String) (env : RemoteEnv) (fs : FSState)
    (h : parseXmlString xml = none) :
    applyChangesAction xml pd ir sc epd env fs =
      (.error "Invalid XML format. Could not find changed_files.", fs) := by
  simp [applyChangesAction, h]

/-- C4 witness: the amended theorem at a malformed document. -/
theorem claim4_apply_throws_witness :
    applyChangesAction .malformed "/proj" true none none idleEnv emptyFS =
      (.error "Invalid XML format. Could not find changed_files.", emptyFS) :=
  claim4_apply_throws .malformed "/proj" true none none idleEnv emptyFS rfl

/-! ### C5 — missing content fails the whole parse -/

/-- C5: a change-set document containing a CREATE or UPDATE record without
content fails the whole parse (the spec-modelled `parseXmlString` returns
`null`), and `applyChangesAction` on that document throws before the apply
loop starts: the target tree is returned unchanged, so no operation — not
even one preceding the defective record in document order — is applied. -/
theorem claim5_no_content_fails_parse (entries : List FileChange) (e : FileChange)
    (pd : String) (ir : Bool) (sc : Option ApplySSHConfig) (epd : Option String)
    (env : RemoteEnv) (fs : FSState)
    (hmem : e ∈ entries) (hop : opRequiresContent e.file_operation = true)
    (hcode : e.file_code = none) :
    parseXmlString (.files entries) = none ∧
    applyChangesAction (.files entries) pd ir sc epd env fs =
      (.error "Invalid XML format. Could not find changed_files.", fs) := by
  have hall : entries.all
      (fun x => !(opRequiresContent x.file_operation && x.file_code.isNone)) = false := by
    cases hb : entries.all
        (fun x => !(opRequiresContent x.file_operation && x.file_code.isNone)) with
    | false => rfl
    | true =>
      have := List.all_eq_true.mp hb e hmem
      simp [hop, hcode] at this
  have hparse : parseXmlString (.files entries) = none := by
    simp only [parseXmlString]
    rw [hall]
    simp
  exact ⟨hparse, by simp [applyChangesAction, hparse]⟩

/-- A well-formed CREATE record. -/
def claim5GoodChange : FileChange :=
  { file_summary := "add a", file_operation := "CREATE", file_path := "a.txt",
    file_code := some "x" }

/-- An UPDATE record lacking content. -/
def claim5BadChange : FileChange :=
  { file_summary := "touch b", file_operation := "UPDATE", file_path := "b.txt",
    file_code := none }

/-- C5 witness: a document whose first record is fine and whose second lacks
content; nothing is applied. -/
theorem claim5_no_content_fails_parse_witness :
    parseXmlString (.files [claim5GoodChange, claim5BadChange]) = none ∧
    applyChangesAction (.files [claim5GoodChange, claim5BadChange]) "/proj" false none none
      idleEnv emptyFS =
      (.error "Invalid XML format. Could not find changed_files.", emptyFS) :=
  claim5_no_content_fails_parse [claim5GoodChange, claim5BadChange] claim5BadChange
    "/proj" false none none idleEnv emptyFS (by decide) (by decide) rfl


/-! ### C6 — idempotent DELETE -/

/-- Removing an absent path changes nothing. -/
theorem rmForce_absent (fs : FSState) (p : List String) (h : lookupFile fs p = none) :
    rmForce fs p = fs := by
  have hf : fs.files.find? (fun e => decide (e.1 = p)) = none := by
    cases hfind : fs.files.find? (fun e => decide (e.1 = p)) with
    | none => rfl
    | some e => simp [lookupFile, hfind] at h
  have hfilter : fs.files.filter (fun e => !decide (e.1 = p)) = fs.files := by
    apply List.filter_eq_self.mpr
    intro a ha
    have := List.find?_eq_none.mp hf a ha
    simpa using this
  cases fs with
  | mk d f => simp [rmForce] at hfilter ⊢; exact hfilter

/-- C6: a DELETE whose target path is absent succeeds on both backends —
locally `fs.rm` with `force` tolerates absence and the tree is unchanged;
remotely the `No such file` unlink error is treated as success — while any
other remote unlink error is surfaced as a failure. -/
theorem claim6_idempotent_delete (change : FileChange) (root : List String) (fs : FSState)
    (cfg : ApplySSHConfig) (env : RemoteEnv)
    (hop : jsToUpperCase change.file_operation = "DELETE")
    (habs : lookupFile fs (joinPath root change.file_path) = none)
    (hpw : (jsNonEmpty cfg.password).isSome = true)
    (hconn : env.connectErr = none) (hsftp : env.sftpErr = none)
    (hunlink : env.unlinkErr = none) :
    applyFileChanges change root fs = (.ok (), fs) ∧
    applyRemoteFileChanges change root cfg env fs = (.ok (), fs) ∧
    (∀ env2 : RemoteEnv, ∀ m : String, env2.connectErr = none → env2.sftpErr = none →
      env2.unlinkErr = some m → jsIncludes m "No such file" = false →
      jsIncludes m "ENOENT" = false →
      applyRemoteFileChanges change root cfg env2 fs =
        (.error ("Error deleting " ++ showPath (joinPath root change.file_path) ++ ": " ++ m),
          fs)) := by
  obtain ⟨pw, hp⟩ := Option.isSome_iff_exists.mp hpw
  have hrm := rmForce_absent fs (joinPath root change.file_path) habs
  refine ⟨?_, ?_, ?_⟩
  · simp [applyFileChanges, hop, hrm]
  · have hincl : jsIncludes "No such file" "No such file" = true := by decide
    simp [applyRemoteFileChanges, hop, hp, hconn, hsftp, hunlink, habs, hrm, hincl]
  · intro env2 m h1 h2 h3 h4 h5
    simp [applyRemoteFileChanges, hop, hp, h1, h2, h3, h4, h5]


/-- A remote-apply config authenticated by password. -/
def sampleApplyCfg : ApplySSHConfig :=
  { host := "h", port := none, username := "u", password := some "p",
    passphrase := none, identityFile := none }

/-- A DELETE record for a file that never exists in `emptyFS`. -/
def claim6Change : FileChange :=
  { file_summary := "", file_operation := "DELETE", file_path := "missing.txt",
    file_code := none }

/-- C6 witness: deleting `missing.txt` from an empty tree succeeds on both
backends, and a remote unlink failing with `Permission denied` is surfaced. -/
theorem claim6_idempotent_delete_witness :
    applyFileChanges claim6Change ["r"] emptyFS = (.ok (), emptyFS) ∧
    applyRemoteFileChanges claim6Change ["r"] sampleApplyCfg idleEnv emptyFS =
      (.ok (), emptyFS) ∧
    applyRemoteFileChanges claim6Change ["r"] sampleApplyCfg
      { idleEnv with unlinkErr := some "Permission denied" } emptyFS =
      (.error ("Error deleting " ++ showPath (joinPath ["r"] "missing.txt") ++
        ": " ++ "Permission denied"), emptyFS) := by
  have h := claim6_idempotent_delete claim6Change ["r"] emptyFS sampleApplyCfg idleEnv
    (by decide) rfl rfl rfl rfl rfl
  exact ⟨h.1, h.2.1,
    h.2.2 { idleEnv with unlinkErr := some "Permission denied" } "Permission denied"
      rfl rfl rfl (by decide) (by decide)⟩

/-! ### C9 — unknown operation kinds are logged no-ops -/

/-- C9: a file operation whose uppercased kind token is none of CREATE,
UPDATE, DELETE is a successful no-op on both backends: the tree is returned
unchanged and no error is reported (the source only logs a warning). -/
theorem claim9_unknown_op_noop (change : FileChange) (root : List String) (fs : FSState)
    (cfg : ApplySSHConfig) (env : RemoteEnv)
    (h1 : (jsToUpperCase change.file_operation == "CREATE") = false)
    (h2 : (jsToUpperCase change.file_operation == "UPDATE") = false)
    (h3 : (jsToUpperCase change.file_operation == "DELETE") = false)
    (hpw : (jsNonEmpty cfg.password).isSome = true)
    (hconn : env.connectErr = none) (hsftp : env.sftpErr = none) :
    applyFileChanges change root fs = (.ok (), fs) ∧
    applyRemoteFileChanges change root cfg env fs = (.ok (), fs) := by
  obtain ⟨pw, hp⟩ := Option.isSome_iff_exists.mp hpw
  constructor
  · simp [applyFileChanges, h1, h2, h3]
  · simp [applyRemoteFileChanges, h1, h2, h3, hp, hconn, hsftp]

/-- C9 witness: a RENAME operation is a no-op on a sample tree. -/
theorem claim9_unknown_op_noop_witness :
    applyFileChanges
      { file_summary := "", file_operation := "rename", file_path := "a.txt",
        file_code := none } ["r"] emptyFS = (.ok (), emptyFS) ∧
    applyRemoteFileChanges
      { file_summary := "", file_operation := "rename", file_path := "a.txt",
        file_code := none } ["r"]
      { host := "h", port := none, username := "u", password := some "p",
        passphrase := none, identityFile := none } idleEnv emptyFS = (.ok (), emptyFS) :=
  claim9_unknown_op_noop _ ["r"] emptyFS _ idleEnv (by decide) (by decide) (by decide)
    (by decide) rfl rfl

/-! ### C10 — remote applier authentication methods -/

/-- C10: the remote change applier accepts only a password or an identity
file; a config carrying neither — and the applier's config type
(src/types) has no inline privateKey field at all, unlike the reader's — is
rejected with `No authentication method provided` before any connection or
file operation, for every environment, leaving the target unchanged. -/
theorem claim10_no_auth_rejected (change : FileChange) (root : List String)
    (cfg : ApplySSHConfig) (env : RemoteEnv) (fs : FSState)
    (hpw : jsNonEmpty cfg.password = none) (hid : jsNonEmpty cfg.identityFile = none) :
    applyRemoteFileChanges change root cfg env fs =
      (.error "No authentication method provided", fs) := by
  simp [applyRemoteFileChanges, hpw, hid]

/-- C10 witness: a config with neither password nor identity file is
rejected even when the environment would allow everything to succeed. -/
theorem claim10_no_auth_rejected_witness :
    applyRemoteFileChanges
      { file_summary := "", file_operation := "CREATE", file_path := "a.txt",
        file_code := some "x" } ["r"]
      { host := "h", port := none, username := "u", password := none,
        passphrase := none, identityFile := none } idleEnv emptyFS =
      (.error "No authentication method provided", emptyFS) :=
  claim10_no_auth_rejected _ ["r"] _ idleEnv emptyFS rfl rfl


/-! ### C7 — recursive directory chain creation -/

theorem ne_of_length_ne {α : Type} (a b : List α) (h : a.length ≠ b.length) : a ≠ b :=
  fun heq => h (congrArg List.length heq)

/-- `path.posix.dirname` drops the last component of a multi-component path. -/
theorem dirnameC_append_singleton (r : List String) (x : String) (h : r ≠ []) :
    dirnameC (r ++ [x]) = r := by
  unfold dirnameC
  rw [if_neg, List.dropLast_concat]
  have := List.length_pos.mpr h
  simp only [List.length_append, List.length_singleton, not_le]
  omega

theorem ancestorsAux_append (acc xs ys : List String) :
    ancestorsAux acc (xs ++ ys) = ancestorsAux acc xs ++ ancestorsAux (acc ++ xs) ys := by
  induction xs generalizing acc with
  | nil => simp [ancestorsAux]
  | cons c rest ih => simp [ancestorsAux, ih, List.append_assoc]

/-- Reading back the file just written. -/
theorem lookupFile_writeFileFS_self (fs : FSState) (p : List String) (c : String) :
    lookupFile (writeFileFS fs p c) p = some c := by
  simp [lookupFile, writeFileFS, List.find?]

/-- A directory already present is found by the remote stat-then-mkdir walk. -/
theorem ensureRemoteGo_mem (fs : FSState) (n : Nat) (d : List String) (h : d ∈ fs.dirs) :
    ensureRemoteDirectoryExistsGo fs (n + 1) d = .ok fs := by
  simp [ensureRemoteDirectoryExistsGo, h]

/-- A missing directory whose parent walk may continue: recurse on the
parent, then `mkdir`. -/
theorem ensureRemoteGo_step (fs : FSState) (n : Nat) (d : List String)
    (hd : d ∉ fs.dirs)
    (hb : ¬(dirnameC d = d ∨ dirnameC d = ["."] ∨ dirnameC d = [""])) :
    ensureRemoteDirectoryExistsGo fs (n + 1) d =
      match ensureRemoteDirectoryExistsGo fs n (dirnameC d) with
      | .error e => .error e
      | .ok fs2 => .ok { fs2 with dirs := fs2.dirs ++ [d] } := by
  simp [ensureRemoteDirectoryExistsGo, hd, hb]

/-- The remote stat-then-mkdir walk on a three-deep missing chain under an
existing root creates exactly the three directories, shallowest first. -/
theorem ensureRemote_chain3 (fs : FSState) (r : List String) (x y z : String)
    (hr1 : r ≠ []) (hr2 : r ≠ ["."]) (hr3 : r ≠ [""])
    (h0 : r ∈ fs.dirs) (h1 : r ++ [x] ∉ fs.dirs) (h2 : r ++ [x, y] ∉ fs.dirs)
    (h3 : r ++ [x, y, z] ∉ fs.dirs) :
    ensureRemoteDirectoryExists fs (r ++ [x, y, z]) =
      .ok { dirs := ((fs.dirs ++ [r ++ [x]]) ++ [r ++ [x, y]]) ++ [r ++ [x, y, z]],
            files := fs.files } := by
  have hrlen := List.length_pos.mpr hr1
  have hdn3 : dirnameC (r ++ [x, y, z]) = r ++ [x, y] := by
    rw [show r ++ [x, y, z] = (r ++ [x, y]) ++ [z] by simp]
    exact dirnameC_append_singleton _ _ (by simp)
  have hdn2 : dirnameC (r ++ [x, y]) = r ++ [x] := by
    rw [show r ++ [x, y] = (r ++ [x]) ++ [y] by simp]
    exact dirnameC_append_singleton _ _ (by simp)
  have hdn1 : dirnameC (r ++ [x]) = r := dirnameC_append_singleton r x hr1
  have hb3 : ¬(dirnameC (r ++ [x, y, z]) = r ++ [x, y, z] ∨
      dirnameC (r ++ [x, y, z]) = ["."] ∨ dirnameC (r ++ [x, y, z]) = [""]) := by
    rw [hdn3]
    push_neg
    refine ⟨?_, ?_, ?_⟩ <;> apply ne_of_length_ne <;>
      simp only [List.length_append, List.length_cons, List.length_nil,
        List.length_singleton] <;> omega
  have hb2 : ¬(dirnameC (r ++ [x, y]) = r ++ [x, y] ∨
      dirnameC (r ++ [x, y]) = ["."] ∨ dirnameC (r ++ [x, y]) = [""]) := by
    rw [hdn2]
    push_neg
    refine ⟨?_, ?_, ?_⟩ <;> apply ne_of_length_ne <;>
      simp only [List.length_append, List.length_cons, List.length_nil,
        List.length_singleton] <;> omega
  have hb1 : ¬(dirnameC (r ++ [x]) = r ++ [x] ∨
      dirnameC (r ++ [x]) = ["."] ∨ dirnameC (r ++ [x]) = [""]) := by
    rw [hdn1]
    push_neg
    refine ⟨?_, hr2, hr3⟩
    apply ne_of_length_ne
    simp only [List.length_append, List.length_singleton]
    omega
  unfold ensureRemoteDirectoryExists
  rw [ensureRemoteGo_step fs _ _ h3 hb3, hdn3,
    show (r ++ [x, y, z]).length = (r ++ [x, y]).length + 1 by
      simp [List.length_append],
    ensureRemoteGo_step fs _ _ h2 hb2, hdn2,
    show (r ++ [x, y]).length = (r ++ [x]).length + 1 by simp [List.length_append],
    ensureRemoteGo_step fs _ _ h1 hb1, hdn1,
    show (r ++ [x]).length = r.length + 1 by simp [List.length_append],
    ensureRemoteGo_mem fs _ _ h0]




/-- The CREATE record of the P7 scenario. -/
def claim7Change (content : String) : FileChange :=
  { file_summary := "", file_operation := "CREATE", file_path := "a/b/c/file.txt",
    file_code := some content }

/-- C7: applying a CREATE of `a/b/c/file.txt` with non-empty content against
a target root under which none of `a`, `a/b`, `a/b/c` exist succeeds on both
backends, after which all three directories exist and the file holds exactly
the given content.  Remotely the chain is built by the recursive
stat-then-mkdir walk from the deepest missing ancestor down, so the root must
itself exist (and not be `.` or `/`, where the walk gives up). -/
theorem claim7_directory_chain (root : List String) (content : String) (fsL fsR : FSState)
    (cfg : ApplySSHConfig) (env : RemoteEnv)
    (hr1 : root ≠ []) (hr2 : root ≠ ["."]) (hr3 : root ≠ [""])
    (hcontent : content ≠ "")
    (hpw : (jsNonEmpty cfg.password).isSome = true)
    (hconn : env.connectErr = none) (hsftp : env.sftpErr = none)
    (hwrite : env.writeErr = none)
    (hR0 : root ∈ fsR.dirs) (hR1 : root ++ ["a"] ∉ fsR.dirs)
    (hR2 : root ++ ["a", "b"] ∉ fsR.dirs) (hR3 : root ++ ["a", "b", "c"] ∉ fsR.dirs) :
    ((applyFileChanges (claim7Change content) root fsL).1 = .ok () ∧
      root ++ ["a"] ∈ (applyFileChanges (claim7Change content) root fsL).2.dirs ∧
      root ++ ["a", "b"] ∈ (applyFileChanges (claim7Change content) root fsL).2.dirs ∧
      root ++ ["a", "b", "c"] ∈ (applyFileChanges (claim7Change content) root fsL).2.dirs ∧
      lookupFile (applyFileChanges (claim7Change content) root fsL).2
        (root ++ ["a", "b", "c", "file.txt"]) = some content) ∧
    ((applyRemoteFileChanges (claim7Change content) root cfg env fsR).1 = .ok () ∧
      root ++ ["a"] ∈ (applyRemoteFileChanges (claim7Change content) root cfg env fsR).2.dirs ∧
      root ++ ["a", "b"] ∈
        (applyRemoteFileChanges (claim7Change content) root cfg env fsR).2.dirs ∧
      root ++ ["a", "b", "c"] ∈
        (applyRemoteFileChanges (claim7Change content) root cfg env fsR).2.dirs ∧
      lookupFile (applyRemoteFileChanges (claim7Change content) root cfg env fsR).2
        (root ++ ["a", "b", "c", "file.txt"]) = some content) := by
  obtain ⟨pw, hp⟩ := Option.isSome_iff_exists.mp hpw
  have hbeq : (content == "") = false := beq_eq_false_iff_ne.mpr hcontent
  have hsplit : splitPath "a/b/c/file.txt" = ["a", "b", "c", "file.txt"] := by decide
  have hfull : joinPath root "a/b/c/file.txt" = root ++ ["a", "b", "c", "file.txt"] := by
    simp [joinPath, hsplit]
  have hdir : dirnameC (root ++ ["a", "b", "c", "file.txt"]) = root ++ ["a", "b", "c"] := by
    rw [show root ++ ["a", "b", "c", "file.txt"]
        = (root ++ ["a", "b", "c"]) ++ ["file.txt"] by simp]
    exact dirnameC_append_singleton _ _ (by simp)
  have hanc : ancestorsAux root ["a", "b", "c"]
      = [root ++ ["a"], root ++ ["a", "b"], root ++ ["a", "b", "c"]] := by
    simp [ancestorsAux]
  have hCR : jsToUpperCase "CREATE" = "CREATE" := by decide
  have hcode : jsNonEmpty (some content) = some content := by simp [jsNonEmpty, hbeq]
  have hlocal : applyFileChanges (claim7Change content) root fsL =
      (.ok (), writeFileFS (ensureDirectoryExists fsL (root ++ ["a", "b", "c"]))
        (root ++ ["a", "b", "c", "file.txt"]) content) := by
    simp [applyFileChanges, claim7Change, hcode, hfull, hdir, hCR]
  have hchain := ensureRemote_chain3 fsR root "a" "b" "c" hr1 hr2 hr3 hR0 hR1 hR2 hR3
  have hremote : applyRemoteFileChanges (claim7Change content) root cfg env fsR =
      (.ok (), writeFileFS
        { dirs := ((fsR.dirs ++ [root ++ ["a"]]) ++ [root ++ ["a", "b"]]) ++
            [root ++ ["a", "b", "c"]],
          files := fsR.files }
        (root ++ ["a", "b", "c", "file.txt"]) content) := by
    simp [applyRemoteFileChanges, claim7Change, hcode, hfull, hdir, hp,
      hconn, hsftp, hwrite, hchain, hCR]
  constructor
  · rw [hlocal]
    refine ⟨rfl, ?_, ?_, ?_, lookupFile_writeFileFS_self _ _ _⟩ <;>
      simp [writeFileFS, ensureDirectoryExists, ancestorsAux_append, hanc]
  · rw [hremote]
    refine ⟨rfl, ?_, ?_, ?_, lookupFile_writeFileFS_self _ _ _⟩ <;>
      simp [writeFileFS]

/-- C7 witness: the theorem at a concrete root `/srv/proj` with content
`"hello"`, an empty local tree, and a remote tree containing only the root. -/
theorem claim7_directory_chain_witness :
    ((applyFileChanges (claim7Change "hello") ["", "srv", "proj"] emptyFS).1 = .ok () ∧
      ["", "srv", "proj", "a"] ∈
        (applyFileChanges (claim7Change "hello") ["", "srv", "proj"] emptyFS).2.dirs ∧
      ["", "srv", "proj", "a", "b"] ∈
        (applyFileChanges (claim7Change "hello") ["", "srv", "proj"] emptyFS).2.dirs ∧
      ["", "srv", "proj", "a", "b", "c"] ∈
        (applyFileChanges (claim7Change "hello") ["", "srv", "proj"] emptyFS).2.dirs ∧
      lookupFile (applyFileChanges (claim7Change "hello") ["", "srv", "proj"] emptyFS).2
        ["", "srv", "proj", "a", "b", "c", "file.txt"] = some "hello") ∧
    ((applyRemoteFileChanges (claim7Change "hello") ["", "srv", "proj"] sampleApplyCfg
        idleEnv { dirs := [["", "srv", "proj"]], files := [] }).1 = .ok () ∧
      ["", "srv", "proj", "a"] ∈
        (applyRemoteFileChanges (claim7Change "hello") ["", "srv", "proj"] sampleApplyCfg
          idleEnv { dirs := [["", "srv", "proj"]], files := [] }).2.dirs ∧
      ["", "srv", "proj", "a", "b"] ∈
        (applyRemoteFileChanges (claim7Change "hello") ["", "srv", "proj"] sampleApplyCfg
          idleEnv { dirs := [["", "srv", "proj"]], files := [] }).2.dirs ∧
      ["", "srv", "proj", "a", "b", "c"] ∈
        (applyRemoteFileChanges (claim7Change "hello") ["", "srv", "proj"] sampleApplyCfg
          idleEnv { dirs := [["", "srv", "proj"]], files := [] }).2.dirs ∧
      lookupFile (applyRemoteFileChanges (claim7Change "hello") ["", "srv", "proj"]
          sampleApplyCfg idleEnv { dirs := [["", "srv", "proj"]], files := [] }).2
        ["", "srv", "proj", "a", "b", "c", "file.txt"] = some "hello") := by
  have h := claim7_directory_chain ["", "srv", "proj"] "hello" emptyFS
    { dirs := [["", "srv", "proj"]], files := [] } sampleApplyCfg idleEnv
    (by decide) (by decide) (by decide) (by decide) (by decide) rfl rfl rfl
    (by decide) (by decide) (by decide) (by decide)
  exact h

end O1Parser
